import Mathlib

/-!
Verification of the DockDev remote-deployment pipeline
(`src/app/src/server/projLevel/deploy.js`).

The JavaScript module is shallowly embedded: plain object shapes become
structures, promise-returning steps become `Except`-valued functions over
explicit environments of external collaborators (provisioning backend,
file synchronization tool, container runtime, configuration files), and
performed side effects are returned as explicit traces.  Absent boolean
fields of JavaScript objects (which read as `undefined`, hence falsy) are
modelled as `false`; string-valued fields that may be absent are modelled
with `Option String`, with JavaScript truthiness made explicit.
-/

namespace DockDev

/-- Domain error taxonomy of `appLevel/errorMsgs` plus a constructor for
arbitrary low-level JavaScript exceptions that are not domain errors. -/
inductive JsError where
  | FAILED_TO_CREATE_DOCKERFILE
  | FAILED_TO_SYNC_TO_REMOTE
  | FAILED_TO_BUILD_SERVER_IMAGE
  | NO_DOTOKEN
  | raw (msg : String)
deriving DecidableEq

/-- Container entry of the data model (spec section 3).  `nginx` is absent
on entries that never had it set; absent reads as falsy, modelled `false`. -/
structure Container where
  cleanName : String
  image : String
  dockerId : String
  name : String
  server : Bool
  nginx : Bool
  status : String
  machine : String
deriving DecidableEq

/-- Deployment Record threaded through the pipeline (spec section 3). -/
structure RemoteObj where
  cleanName : String
  basePath : String
  machine : String
  ipAddress : String
  containers : List Container
  counter : Nat
  status : Nat
deriving DecidableEq

/-- `createRemoteObj(cleanName, basePath)` from deploy.js. -/
def createRemoteObj (cleanName basePath : String) : RemoteObj :=
  { cleanName := cleanName
    basePath := basePath
    machine := "dockdev-" ++ cleanName
    ipAddress := ""
    containers := []
    counter := 0
    status := 0 }

/-- One `{HostPort: ...}` element of a port-binding list. -/
structure HostPortBinding where
  HostPort : String
deriving DecidableEq

/-- The `HostConfig` sub-object of a container-runtime configuration
payload.  Each generator sets only some of the fields; absent fields are
`none`.  JavaScript objects used as maps become association lists. -/
structure HostConfig where
  NetworkMode : Option String
  Binds : Option (List String)
  PortBindings : Option (List (String × List HostPortBinding))
deriving DecidableEq

/-- A container-runtime configuration payload as produced by the three
role-specific generators.  `ExposedPorts` maps port keys to empty objects,
so only its key list is retained. -/
structure ContainerConfig where
  image : String
  name : String
  Env : Option (List String)
  hostConfig : HostConfig
  ExposedPorts : Option (List String)
deriving DecidableEq

/-- `setRemoteServerParams(container, remoteObj)` from deploy.js: server
role payload.  Note the source reads `container.cleanName`, not
`remoteObj.cleanName`, for the network mode. -/
def setRemoteServerParams (container : Container) (remoteObj : RemoteObj) :
    ContainerConfig :=
  { image := container.image
    name := container.name
    Env := some ["VIRTUAL_HOST=" ++ remoteObj.ipAddress]
    hostConfig :=
      { NetworkMode := some container.cleanName
        Binds := none
        PortBindings := none }
    ExposedPorts := none }

/-- `setRemoteDbs(container)` from deploy.js: database/auxiliary payload. -/
def setRemoteDbs (container : Container) : ContainerConfig :=
  { image := container.image
    name := container.name
    Env := none
    hostConfig :=
      { NetworkMode := some container.cleanName
        Binds := none
        PortBindings := none }
    ExposedPorts := none }

/-- `setProxyParams(container)` from deploy.js: reverse-proxy payload. -/
def setProxyParams (container : Container) : ContainerConfig :=
  { image := container.image
    name := container.name
    Env := none
    hostConfig :=
      { NetworkMode := none
        Binds := some ["/var/run/docker.sock:/tmp/docker.sock:ro"]
        PortBindings := some [("80/tcp", [{ HostPort := "80" }])] }
    ExposedPorts := some ["80/tcp"] }

/-- `getRemoteConfig(container, remoteObj)` from deploy.js: role dispatch,
server first, then proxy, otherwise database. -/
def getRemoteConfig (container : Container) (remoteObj : RemoteObj) :
    ContainerConfig :=
  if container.server then setRemoteServerParams container remoteObj
  else if container.nginx then setProxyParams container
  else setRemoteDbs container

/-- A sample server-role container whose `cleanName` differs from the
record it is paired with. -/
def sampleServerCont : Container :=
  { cleanName := "alpha"
    image := "node:8"
    dockerId := ""
    name := "server0"
    server := true
    nginx := false
    status := "pending"
    machine := "" }

/-- A sample deployment record with `cleanName = "beta"`. -/
def sampleRemoteObj : RemoteObj :=
  { cleanName := "beta"
    basePath := "/proj"
    machine := "dockdev-beta"
    ipAddress := "10.0.0.5"
    containers := []
    counter := 0
    status := 0 }

/-- A file write attempted through the `writeFile` collaborator. -/
structure FsWrite where
  path : String
  content : String
deriving DecidableEq

/-- The literal Dockerfile template of `createDockerfile`, parameterised by
the server image of its base-image line. -/
def dockerfileTemplate (image : String) : String :=
  "From " ++ image ++ "\n" ++
  "COPY . /app\n" ++
  "WORKDIR /app\n" ++
  "RUN [\"npm\", \"install\", \"--production\"]\n" ++
  "EXPOSE 3000\n" ++
  "CMD [\"npm\", \"start\"]"

/-- `createDockerfile(containers, basePath)` from deploy.js.  The
collaborator `writeFile` may fail.  The source selects
`containers.filter(cont => cont.server)[0]`; when no server-role container
exists that index is `undefined`, the template interpolation throws, and
the surrounding catch converts any failure into
`FAILED_TO_CREATE_DOCKERFILE`.  Returned alongside the result is the trace
of attempted file writes. -/
def createDockerfile (containers : List Container) (basePath : String)
    (writeFile : String → String → Except JsError Unit) :
    Except JsError Bool × List FsWrite :=
  match containers.filter (fun cont => cont.server) with
  | [] => (Except.error JsError.FAILED_TO_CREATE_DOCKERFILE, [])
  | server :: _ =>
    let dockerFile := dockerfileTemplate server.image
    match writeFile (basePath ++ "/Dockerfile") dockerFile with
    | Except.ok _ =>
      (Except.ok true, [{ path := basePath ++ "/Dockerfile", content := dockerFile }])
    | Except.error _ =>
      (Except.error JsError.FAILED_TO_CREATE_DOCKERFILE,
        [{ path := basePath ++ "/Dockerfile", content := dockerFile }])

/-- Connection metadata extracted by `rsync.selectSSHandIP` from an
`inspect` response: SSH target and IP address. -/
structure MachineInfo where
  SSHTarget : String
  IPAddress : String
deriving DecidableEq

/-- External collaborators of `syncFilesToRemote`.  `cleanFilePath`,
`selectSSHandIP`, `createRemoteRsyncArgs` and `rsync` live in the `rsync`
module and `inspect` in the machine API, all outside this module; each is
a JavaScript call that may throw, so each is modelled as a fallible
function.  `inspectMachine` is the composition of `inspect` with
`selectSSHandIP`.  `remoteDest` is `defaultConfig.remoteDest`. -/
structure SyncEnv where
  cleanFilePath : String → Except JsError String
  remoteDest : String
  inspectMachine : String → Except JsError MachineInfo
  createRemoteRsyncArgs :
    String → String → MachineInfo → Bool → Except JsError (List String)
  runRsync : List String → Except JsError Unit

/-- `syncFilesToRemote(remoteObj, local)` from deploy.js.  Faithful to the
source layout: the calls to `rsync.cleanFilePath` and the destination
resolution precede the `try` block, so only the inspection, argument
construction and rsync execution are guarded by the catch that rethrows
`FAILED_TO_SYNC_TO_REMOTE`. -/
def syncFilesToRemote (env : SyncEnv) (remoteObj : RemoteObj)
    (localFlag : Bool) : Except JsError RemoteObj :=
  match env.cleanFilePath remoteObj.basePath with
  | Except.error e => Except.error e
  | Except.ok cleanPath =>
    let dest := if localFlag then "/home/docker" else env.remoteDest
    match env.inspectMachine remoteObj.machine with
    | Except.error _ => Except.error JsError.FAILED_TO_SYNC_TO_REMOTE
    | Except.ok machineInfo =>
      match env.createRemoteRsyncArgs (cleanPath ++ "/*") dest machineInfo localFlag with
      | Except.error _ => Except.error JsError.FAILED_TO_SYNC_TO_REMOTE
      | Except.ok remoteRsyncArgs =>
        match env.runRsync remoteRsyncArgs with
        | Except.error _ => Except.error JsError.FAILED_TO_SYNC_TO_REMOTE
        | Except.ok _ =>
          Except.ok { remoteObj with ipAddress := machineInfo.IPAddress }

/-- Contents of the local application configuration file as read by
`readConfig`; only the `DOToken` key matters here, and it may be absent. -/
structure AppConfig where
  DOToken : Option String
deriving DecidableEq

/-- JavaScript truthiness of the token read from the configuration file:
`!DOToken` holds when the key is absent or the string is empty. -/
def tokenTruthy : Option String → Bool
  | none => false
  | some t => !(t == "")

/-- Opaque project configuration object handled by the external
`loadProject` and `writeProj` collaborators. -/
structure ProjObj where
  raw : String
deriving DecidableEq

/-- One observable external call made during `initRemote`, in order. -/
inductive RemoteEffect where
  | readConfigCall (path : String)
  | loadProjectCall (path : String)
  | createMachineCall (machineName : String) (token : String)
  | writeProjCall (proj : ProjObj)
  | createNetworkCall (cleanName : String)
deriving DecidableEq

/-- External collaborators of `initRemote`: configuration reader, project
configuration store, provisioning backend and network creation. -/
structure InitEnv where
  configPath : String
  readConfig : String → Except JsError AppConfig
  loadProject : String → Except JsError ProjObj
  createMachine : String → String → Except JsError Unit
  writeProj : ProjObj → Except JsError Unit
  createRemoteNetwork : RemoteObj → Except JsError Unit

/-- `initRemote(cleanName, path)` from deploy.js, returning the result
together with the ordered trace of external calls it performed.  The
token check precedes every call other than the local configuration read;
`createDroplet` invokes `createMachine` on the record's machine name. -/
def initRemote (env : InitEnv) (cleanName path : String) :
    Except JsError RemoteObj × List RemoteEffect :=
  match env.readConfig env.configPath with
  | Except.error e => (Except.error e, [RemoteEffect.readConfigCall env.configPath])
  | Except.ok readConfigFile =>
    if tokenTruthy readConfigFile.DOToken = false then
      (Except.error JsError.NO_DOTOKEN, [RemoteEffect.readConfigCall env.configPath])
    else
      let token := readConfigFile.DOToken.getD ""
      let remoteObj := createRemoteObj cleanName path
      match env.loadProject path with
      | Except.error e =>
        (Except.error e,
          [RemoteEffect.readConfigCall env.configPath,
           RemoteEffect.loadProjectCall path])
      | Except.ok projObj =>
        match env.createMachine remoteObj.machine token with
        | Except.error e =>
          (Except.error e,
            [RemoteEffect.readConfigCall env.configPath,
             RemoteEffect.loadProjectCall path,
             RemoteEffect.createMachineCall remoteObj.machine token])
        | Except.ok _ =>
          match env.writeProj projObj with
          | Except.error e =>
            (Except.error e,
              [RemoteEffect.readConfigCall env.configPath,
               RemoteEffect.loadProjectCall path,
               RemoteEffect.createMachineCall remoteObj.machine token,
               RemoteEffect.writeProjCall projObj])
          | Except.ok _ =>
            match env.createRemoteNetwork remoteObj with
            | Except.error e =>
              (Except.error e,
                [RemoteEffect.readConfigCall env.configPath,
                 RemoteEffect.loadProjectCall path,
                 RemoteEffect.createMachineCall remoteObj.machine token,
                 RemoteEffect.writeProjCall projObj,
                 RemoteEffect.createNetworkCall remoteObj.cleanName])
            | Except.ok _ =>
              (Except.ok remoteObj,
                [RemoteEffect.readConfigCall env.configPath,
                 RemoteEffect.loadProjectCall path,
                 RemoteEffect.createMachineCall remoteObj.machine token,
                 RemoteEffect.writeProjCall projObj,
                 RemoteEffect.createNetworkCall remoteObj.cleanName])

/-- Image descriptor passed to `containerObj`: the published image
reference (under the key `name`) and the server flag. -/
structure ImageDescriptor where
  name : String
  server : Bool
deriving DecidableEq

/-- Modelled from the spec: `containerObj` lives in
`projLevel/containerMgmt.js`, which is not part of the sources here.  Per
the data model of spec section 3 it builds a baseline Container entry for
the given project: `cleanName` inherited from the record, `image` taken
from the descriptor, `dockerId` empty until creation succeeds, `name` not
yet assigned, `server` from the descriptor, no `nginx` flag (falsy, hence
`false`), initial `status = "pending"`, and `machine` set only at
creation time (empty here). -/
def containerObj (cleanName : String) (image : ImageDescriptor) : Container :=
  { cleanName := cleanName
    image := image.name
    dockerId := ""
    name := ""
    server := image.server
    nginx := false
    status := "pending"
    machine := "" }

/-- `addNginxContainer(containers, remoteObj)` from deploy.js: builds the
proxy entry via `containerObj`, marks it `nginx` and names it `"proxy"`,
then returns a fresh array with it appended. -/
def addNginxContainer (containers : List Container) (remoteObj : RemoteObj) :
    List Container :=
  let nginxBase :=
    containerObj remoteObj.cleanName { name := "jwilder/nginx-proxy", server := false }
  let nginx := { nginxBase with nginx := true, name := "proxy" }
  containers ++ [nginx]

/-- `remoteServerObj(remoteObj)` from deploy.js.  The source sets no
`nginx` key (falsy, modelled `false`). -/
def remoteServerObj (remoteObj : RemoteObj) : Container :=
  { cleanName := remoteObj.cleanName
    image := "dockdev/" ++ remoteObj.cleanName ++ ":" ++ toString remoteObj.counter
    dockerId := ""
    name := "server" ++ toString remoteObj.counter
    server := true
    nginx := false
    status := "pending"
    machine := remoteObj.machine }

/-- Response of the container-runtime create call: at least an `Id`. -/
structure CreateResponse where
  Id : String
deriving DecidableEq

/-- `createRemoteContainer(container, remoteObj)` from deploy.js, with the
container-runtime `containerCreate` collaborator passed explicitly. -/
def createRemoteContainer
    (containerCreate : String → ContainerConfig → Except JsError CreateResponse)
    (container : Container) (remoteObj : RemoteObj) : Except JsError Container :=
  let config := getRemoteConfig container remoteObj
  match containerCreate remoteObj.machine config with
  | Except.error e => Except.error e
  | Except.ok dockCont =>
    Except.ok { container with dockerId := dockCont.Id, machine := remoteObj.machine }

/-- A sample proxy-role container. -/
def sampleProxyCont : Container :=
  { cleanName := "beta"
    image := "jwilder/nginx-proxy"
    dockerId := ""
    name := "proxy"
    server := false
    nginx := true
    status := "pending"
    machine := "" }

/-- A sample database-role container. -/
def sampleDbCont : Container :=
  { cleanName := "beta"
    image := "postgres:9"
    dockerId := ""
    name := "mydb"
    server := false
    nginx := false
    status := "pending"
    machine := "" }

/-- Head of a filtered list is the first element satisfying the
predicate. -/
theorem head?_filter_eq_find? {α : Type} (p : α → Bool) :
    ∀ l : List α, (l.filter p).head? = l.find? p
  | [] => rfl
  | a :: t => by
    by_cases h : p a
    · simp [List.filter_cons, List.find?, h]
    · simp only [List.filter_cons, List.find?, h]
      exact head?_filter_eq_find? p t

/-- C1 (claim as stated is false): a server-role container whose
`cleanName` differs from the deployment record yields a config whose
`HostConfig.NetworkMode` is the container's `cleanName`, not the
record's. -/
theorem C1_networkMode_counterexample :
    sampleServerCont.server = true ∧
    (getRemoteConfig sampleServerCont sampleRemoteObj).hostConfig.NetworkMode ≠
      some sampleRemoteObj.cleanName := by
  decide

/-- C1 (amended): for every server-role container `c` and record `r`, the
generated config has `HostConfig.NetworkMode` equal to `c.cleanName` (which
coincides with `r.cleanName` exactly when the container inherits the
record's `cleanName`) and `Env` holding exactly one entry, equal to
`"VIRTUAL_HOST=" ++ r.ipAddress`. -/
theorem C1_server_config (c : Container) (r : RemoteObj)
    (h : c.server = true) :
    (getRemoteConfig c r).hostConfig.NetworkMode = some c.cleanName ∧
    (getRemoteConfig c r).Env = some ["VIRTUAL_HOST=" ++ r.ipAddress] := by
  simp [getRemoteConfig, setRemoteServerParams, h]

/-- C1 witness: the amended statement instantiated at a concrete pair. -/
theorem C1_server_config_witness :
    sampleServerCont.server = true ∧
    ((getRemoteConfig sampleServerCont sampleRemoteObj).hostConfig.NetworkMode =
        some sampleServerCont.cleanName ∧
      (getRemoteConfig sampleServerCont sampleRemoteObj).Env =
        some ["VIRTUAL_HOST=" ++ sampleRemoteObj.ipAddress]) :=
  ⟨by decide, C1_server_config sampleServerCont sampleRemoteObj (by decide)⟩

/-- A sync environment whose path normalization throws a low-level error;
all later steps would succeed. -/
def failPathSyncEnv : SyncEnv :=
  { cleanFilePath := fun _ => Except.error (JsError.raw "ENOENT")
    remoteDest := "/home/deploy"
    inspectMachine := fun _ =>
      Except.ok { SSHTarget := "docker@10.0.0.5", IPAddress := "10.0.0.5" }
    createRemoteRsyncArgs := fun src dest _ _ => Except.ok [src, dest]
    runRsync := fun _ => Except.ok () }

/-- A sync environment whose path normalization succeeds but whose machine
inspection fails. -/
def failInspectSyncEnv : SyncEnv :=
  { cleanFilePath := fun p => Except.ok p
    remoteDest := "/home/deploy"
    inspectMachine := fun _ => Except.error (JsError.raw "machine not found")
    createRemoteRsyncArgs := fun src dest _ _ => Except.ok [src, dest]
    runRsync := fun _ => Except.ok () }

/-- A sync environment in which every step succeeds. -/
def okSyncEnv : SyncEnv :=
  { cleanFilePath := fun p => Except.ok p
    remoteDest := "/home/deploy"
    inspectMachine := fun _ =>
      Except.ok { SSHTarget := "docker@10.0.0.5", IPAddress := "10.0.0.5" }
    createRemoteRsyncArgs := fun src dest _ _ => Except.ok [src, dest]
    runRsync := fun _ => Except.ok () }

/-- C2 (claim as stated is false): a failure in step 1, path
normalization, escapes `syncFilesToRemote` as the raw low-level error, not
as the "sync to remote failed" domain error, because the normalization
call precedes the guarded block. -/
theorem C2_sync_error_counterexample :
    syncFilesToRemote failPathSyncEnv sampleRemoteObj false =
      Except.error (JsError.raw "ENOENT") ∧
    JsError.raw "ENOENT" ≠ JsError.FAILED_TO_SYNC_TO_REMOTE := by
  exact ⟨rfl, by decide⟩

/-- C2 (amended): once path normalization (step 1) has succeeded —
destination resolution (step 2) cannot fail — every failure in the
remaining steps (machine inspection, argument construction, rsync
execution) surfaces as the "sync to remote failed" domain error, and no
record is returned; a step-1 failure instead propagates unwrapped. -/
theorem C2_sync_error_wrapped (env : SyncEnv) (r : RemoteObj)
    (localFlag : Bool) (cleanPath : String) (e : JsError)
    (h1 : env.cleanFilePath r.basePath = Except.ok cleanPath)
    (h2 : syncFilesToRemote env r localFlag = Except.error e) :
    e = JsError.FAILED_TO_SYNC_TO_REMOTE := by
  unfold syncFilesToRemote at h2
  rw [h1] at h2
  dsimp only at h2
  rcases hi : env.inspectMachine r.machine with e2 | mi <;>
    rw [hi] at h2 <;> dsimp only at h2
  · injection h2 with h
    exact h.symm
  · rcases ha : env.createRemoteRsyncArgs (cleanPath ++ "/*")
        (if localFlag then "/home/docker" else env.remoteDest) mi localFlag with
      e3 | args <;> rw [ha] at h2 <;> dsimp only at h2
    · injection h2 with h
      exact h.symm
    · rcases hr : env.runRsync args with e4 | u <;>
        rw [hr] at h2 <;> dsimp only at h2
      · injection h2 with h
        exact h.symm
      · simp at h2

/-- C2 witness: the amended statement instantiated at a concrete
environment whose inspection step fails. -/
theorem C2_sync_error_wrapped_witness :
    failInspectSyncEnv.cleanFilePath sampleRemoteObj.basePath =
      Except.ok "/proj" ∧
    syncFilesToRemote failInspectSyncEnv sampleRemoteObj false =
      Except.error JsError.FAILED_TO_SYNC_TO_REMOTE ∧
    JsError.FAILED_TO_SYNC_TO_REMOTE = JsError.FAILED_TO_SYNC_TO_REMOTE :=
  ⟨rfl, rfl,
    C2_sync_error_wrapped failInspectSyncEnv sampleRemoteObj false "/proj"
      JsError.FAILED_TO_SYNC_TO_REMOTE rfl rfl⟩

/-- C3: when normalization, inspection, argument construction and rsync
all succeed, `syncFilesToRemote` returns a record whose `ipAddress` is the
IP extracted from the inspect metadata and whose every other field —
`cleanName`, `basePath`, `machine`, `containers`, `counter`, `status` — is
unchanged. -/
theorem C3_sync_success_frame (env : SyncEnv) (r : RemoteObj)
    (localFlag : Bool) (cleanPath : String) (mi : MachineInfo)
    (args : List String)
    (h1 : env.cleanFilePath r.basePath = Except.ok cleanPath)
    (h2 : env.inspectMachine r.machine = Except.ok mi)
    (h3 : env.createRemoteRsyncArgs (cleanPath ++ "/*")
        (if localFlag then "/home/docker" else env.remoteDest) mi localFlag =
      Except.ok args)
    (h4 : env.runRsync args = Except.ok ()) :
    syncFilesToRemote env r localFlag =
      Except.ok
        { cleanName := r.cleanName
          basePath := r.basePath
          machine := r.machine
          ipAddress := mi.IPAddress
          containers := r.containers
          counter := r.counter
          status := r.status } := by
  unfold syncFilesToRemote
  rw [h1]
  simp only [h2, h3, h4]

/-- C3 witness: the frame property instantiated at a concrete record and
all-succeeding environment. -/
theorem C3_sync_success_frame_witness :
    okSyncEnv.cleanFilePath sampleRemoteObj.basePath = Except.ok "/proj" ∧
    okSyncEnv.inspectMachine sampleRemoteObj.machine =
      Except.ok { SSHTarget := "docker@10.0.0.5", IPAddress := "10.0.0.5" } ∧
    syncFilesToRemote okSyncEnv sampleRemoteObj false =
      Except.ok
        { cleanName := sampleRemoteObj.cleanName
          basePath := sampleRemoteObj.basePath
          machine := sampleRemoteObj.machine
          ipAddress := "10.0.0.5"
          containers := sampleRemoteObj.containers
          counter := sampleRemoteObj.counter
          status := sampleRemoteObj.status } :=
  ⟨rfl, rfl,
    C3_sync_success_frame okSyncEnv sampleRemoteObj false "/proj"
      { SSHTarget := "docker@10.0.0.5", IPAddress := "10.0.0.5" }
      ["/proj/*", "/home/deploy"] rfl rfl rfl rfl⟩

/-- An initRemote environment whose configuration file has no `DOToken`;
every remote collaborator would succeed if reached. -/
def noTokenInitEnv : InitEnv :=
  { configPath := "/home/user/.dockdev"
    readConfig := fun _ => Except.ok { DOToken := none }
    loadProject := fun _ => Except.ok { raw := "projObj" }
    createMachine := fun _ _ => Except.ok ()
    writeProj := fun _ => Except.ok ()
    createRemoteNetwork := fun _ => Except.ok () }

/-- C4: when the configuration file lacks the access token, `initRemote`
fails with the missing-credential error and its external-call trace holds
nothing beyond the local configuration read: no provisioning call, no
project load or write, no network creation. -/
theorem C4_initRemote_no_token (env : InitEnv) (cleanName path : String)
    (readConfigFile : AppConfig)
    (h1 : env.readConfig env.configPath = Except.ok readConfigFile)
    (h2 : readConfigFile.DOToken = none) :
    initRemote env cleanName path =
      (Except.error JsError.NO_DOTOKEN,
        [RemoteEffect.readConfigCall env.configPath]) := by
  unfold initRemote
  rw [h1]
  simp [tokenTruthy, h2]

/-- C4 witness: the missing-token behaviour at a concrete environment. -/
theorem C4_initRemote_no_token_witness :
    noTokenInitEnv.readConfig noTokenInitEnv.configPath =
      Except.ok { DOToken := none } ∧
    initRemote noTokenInitEnv "blog" "/proj" =
      (Except.error JsError.NO_DOTOKEN,
        [RemoteEffect.readConfigCall noTokenInitEnv.configPath]) :=
  ⟨rfl,
    C4_initRemote_no_token noTokenInitEnv "blog" "/proj" { DOToken := none }
      rfl rfl⟩

/-- A container-runtime create collaborator that always succeeds with a
fixed identifier. -/
def okContainerCreate : String → ContainerConfig → Except JsError CreateResponse :=
  fun _ _ => Except.ok { Id := "abc123" }

/-- C6: when the container-runtime create call succeeds,
`createRemoteContainer` returns a container identical to the input except
that `dockerId` is the `Id` of the create response and `machine` is the
record's machine. -/
theorem C6_createRemoteContainer_frame
    (containerCreate : String → ContainerConfig → Except JsError CreateResponse)
    (c : Container) (r : RemoteObj) (dockCont : CreateResponse)
    (h : containerCreate r.machine (getRemoteConfig c r) = Except.ok dockCont) :
    createRemoteContainer containerCreate c r =
      Except.ok
        { cleanName := c.cleanName
          image := c.image
          dockerId := dockCont.Id
          name := c.name
          server := c.server
          nginx := c.nginx
          status := c.status
          machine := r.machine } := by
  unfold createRemoteContainer
  dsimp only
  rw [h]

/-- C6 witness: the frame property at a concrete container, record and
always-succeeding runtime. -/
theorem C6_createRemoteContainer_frame_witness :
    okContainerCreate sampleRemoteObj.machine
        (getRemoteConfig sampleDbCont sampleRemoteObj) =
      Except.ok { Id := "abc123" } ∧
    createRemoteContainer okContainerCreate sampleDbCont sampleRemoteObj =
      Except.ok
        { cleanName := sampleDbCont.cleanName
          image := sampleDbCont.image
          dockerId := "abc123"
          name := sampleDbCont.name
          server := sampleDbCont.server
          nginx := sampleDbCont.nginx
          status := sampleDbCont.status
          machine := sampleRemoteObj.machine } :=
  ⟨rfl,
    C6_createRemoteContainer_frame okContainerCreate sampleDbCont
      sampleRemoteObj { Id := "abc123" } rfl⟩

/-- C8: for every proxy-role container the generated config exposes port
80/tcp, binds host port 80 to container port 80/tcp, and mounts the
control socket `/var/run/docker.sock` at `/tmp/docker.sock` read-only. -/
theorem C8_proxy_config (c : Container) (r : RemoteObj)
    (h1 : c.nginx = true) (h2 : c.server = false) :
    (getRemoteConfig c r).ExposedPorts = some ["80/tcp"] ∧
    (getRemoteConfig c r).hostConfig.PortBindings =
      some [("80/tcp", [{ HostPort := "80" }])] ∧
    (getRemoteConfig c r).hostConfig.Binds =
      some ["/var/run/docker.sock:/tmp/docker.sock:ro"] := by
  simp [getRemoteConfig, setProxyParams, h1, h2]

/-- C8 witness: the proxy configuration shape at a concrete container. -/
theorem C8_proxy_config_witness :
    sampleProxyCont.nginx = true ∧ sampleProxyCont.server = false ∧
    ((getRemoteConfig sampleProxyCont sampleRemoteObj).ExposedPorts =
        some ["80/tcp"] ∧
      (getRemoteConfig sampleProxyCont sampleRemoteObj).hostConfig.PortBindings =
        some [("80/tcp", [{ HostPort := "80" }])] ∧
      (getRemoteConfig sampleProxyCont sampleRemoteObj).hostConfig.Binds =
        some ["/var/run/docker.sock:/tmp/docker.sock:ro"]) :=
  ⟨rfl, rfl,
    C8_proxy_config sampleProxyCont sampleRemoteObj rfl rfl⟩

/-- C9: a record with counter 2 and cleanName "demo" yields the server
container entry with image "dockdev/demo:2", name "server2",
`server = true`, status "pending" and the record's machine. -/
theorem C9_remoteServerObj (r : RemoteObj) (h1 : r.counter = 2)
    (h2 : r.cleanName = "demo") :
    remoteServerObj r =
      { cleanName := "demo"
        image := "dockdev/demo:2"
        dockerId := ""
        name := "server2"
        server := true
        nginx := false
        status := "pending"
        machine := r.machine } := by
  simp only [remoteServerObj, h1, h2, Container.mk.injEq]
  refine ⟨trivial, by decide, trivial, by decide, trivial, trivial, trivial,
    trivial⟩

/-- C9 witness: the server entry at a concrete record. -/
theorem C9_remoteServerObj_witness :
    ({ cleanName := "demo", basePath := "/proj", machine := "dockdev-demo",
       ipAddress := "", containers := [], counter := 2,
       status := 0 } : RemoteObj).counter = 2 ∧
    remoteServerObj
        { cleanName := "demo", basePath := "/proj", machine := "dockdev-demo",
          ipAddress := "", containers := [], counter := 2, status := 0 } =
      { cleanName := "demo"
        image := "dockdev/demo:2"
        dockerId := ""
        name := "server2"
        server := true
        nginx := false
        status := "pending"
        machine := "dockdev-demo" } :=
  ⟨rfl,
    C9_remoteServerObj
      { cleanName := "demo", basePath := "/proj", machine := "dockdev-demo",
        ipAddress := "", containers := [], counter := 2, status := 0 }
      rfl rfl⟩

/-- The Dockerfile template, written as one literal: the exact file
content produced for a given server image. -/
theorem dockerfileTemplate_eq (image : String) :
    dockerfileTemplate image =
      "From " ++ image ++
        "\nCOPY . /app\nWORKDIR /app\nRUN [\"npm\", \"install\", \"--production\"]\nEXPOSE 3000\nCMD [\"npm\", \"start\"]" := by
  unfold dockerfileTemplate
  simp only [String.append_assoc]
  congr 1

/-- A file-write collaborator that always succeeds. -/
def okWriteFile : String → String → Except JsError Unit :=
  fun _ _ => Except.ok ()

/-- C5: when some container has the server role, `createDockerfile`
selects the first such container in list order, writes to
`basePath ++ "/Dockerfile"` exactly the fixed template with the base-image
line "From " followed by that container's image, and resolves to true. -/
theorem C5_createDockerfile_writes_template (containers : List Container)
    (basePath : String) (writeFile : String → String → Except JsError Unit)
    (server : Container)
    (hfind : containers.find? (fun cont => cont.server) = some server)
    (hwrite : writeFile (basePath ++ "/Dockerfile")
        (dockerfileTemplate server.image) = Except.ok ()) :
    createDockerfile containers basePath writeFile =
      (Except.ok true,
        [{ path := basePath ++ "/Dockerfile",
           content := "From " ++ server.image ++
             "\nCOPY . /app\nWORKDIR /app\nRUN [\"npm\", \"install\", \"--production\"]\nEXPOSE 3000\nCMD [\"npm\", \"start\"]" }]) := by
  have hhead : (containers.filter (fun cont => cont.server)).head? = some server := by
    rw [head?_filter_eq_find?]
    exact hfind
  unfold createDockerfile
  rcases hf : containers.filter (fun cont => cont.server) with _ | ⟨a, t⟩
  · rw [hf] at hhead
    exact absurd hhead (by simp)
  · rw [hf] at hhead
    simp only [List.head?_cons, Option.some.injEq] at hhead
    subst hhead
    rw [hf]
    dsimp only
    rw [hwrite]
    rw [dockerfileTemplate_eq]

/-- C5 witness: the Dockerfile written for a server container with image
"node:8" inside a mixed container list, fully evaluated. -/
theorem C5_createDockerfile_writes_template_witness :
    [sampleDbCont, sampleServerCont].find? (fun cont => cont.server) =
      some sampleServerCont ∧
    createDockerfile [sampleDbCont, sampleServerCont] "/proj" okWriteFile =
      (Except.ok true,
        [{ path := "/proj" ++ "/Dockerfile",
           content := "From " ++ sampleServerCont.image ++
             "\nCOPY . /app\nWORKDIR /app\nRUN [\"npm\", \"install\", \"--production\"]\nEXPOSE 3000\nCMD [\"npm\", \"start\"]" }]) :=
  ⟨by decide,
    C5_createDockerfile_writes_template [sampleDbCont, sampleServerCont]
      "/proj" okWriteFile sampleServerCont (by decide) rfl⟩

/-- C7: `addNginxContainer` returns a sequence one longer than its input,
whose first `len(containers)` elements are the input elements unaltered
(the input list itself is immutable and never mutated), and whose last
element is the proxy entry with `nginx = true`, `server = false` and
`name = "proxy"`. -/
theorem C7_addNginxContainer (containers : List Container) (r : RemoteObj) :
    (addNginxContainer containers r).length = containers.length + 1 ∧
    (addNginxContainer containers r).take containers.length = containers ∧
    ∃ c, (addNginxContainer containers r).getLast? = some c ∧
      c.nginx = true ∧ c.server = false ∧ c.name = "proxy" := by
  unfold addNginxContainer
  dsimp only
  refine ⟨by simp, List.take_left containers _, ?_⟩
  exact ⟨_, List.getLast?_concat containers, rfl, rfl, rfl⟩

/-- C10: when no container has the server role, the first-match selection
of `createDockerfile` yields nothing, the failure is trapped by the same
handler as I/O failures, the call fails with the Dockerfile-creation error
and no file write is attempted. -/
theorem C10_createDockerfile_no_server (containers : List Container)
    (basePath : String) (writeFile : String → String → Except JsError Unit)
    (h : ∀ c ∈ containers, c.server = false) :
    createDockerfile containers basePath writeFile =
      (Except.error JsError.FAILED_TO_CREATE_DOCKERFILE, []) := by
  have hf : containers.filter (fun cont => cont.server) = [] :=
    List.filter_eq_nil_iff.mpr (fun a ha => by simp [h a ha])
  unfold createDockerfile
  rw [hf]

/-- C10 witness: the no-server failure at a concrete database-only list
and an always-succeeding writer. -/
theorem C10_createDockerfile_no_server_witness :
    (∀ c ∈ [sampleDbCont, sampleProxyCont], c.server = false) ∧
    createDockerfile [sampleDbCont, sampleProxyCont] "/proj" okWriteFile =
      (Except.error JsError.FAILED_TO_CREATE_DOCKERFILE, []) :=
  ⟨by decide,
    C10_createDockerfile_no_server [sampleDbCont, sampleProxyCont] "/proj"
      okWriteFile (by decide)⟩

end DockDev
